import Mathlib

/-!
Verification of the Med-Mind booking core.

This file shallowly embeds the time-interval booking store
(`backend/app/services/calendar_store.py`) and the pre-visit intake /
report workflow (`backend/app/agents/pre_visit_questions.py`,
`backend/app/agents/pre_visit_report.py`,
`backend/app/agents/booking_agent_workflow.py`).

Modelling conventions:
* Python's global mutable stores (the `EVENTS` list, the per-event JSON
  files under `pre_visit_data/`) become explicit state values threaded
  through the functions; a function that mutates state returns the new
  state, and a function that raises returns an `Except.error` together
  with the unchanged state.
* A parsed ISO-8601 datetime (`_parse_iso`) is modelled by `DTime`, an
  abstract instant carrying the calendar `year` and `month` together
  with a lexicographic remainder `sub` for the position within the
  month; `datetime` comparison is the lexicographic order on these
  fields.  The string-parsing step itself is not modelled: functions
  take already-parsed instants.
* `uuid4()` is nondeterministic, so the fresh id is an explicit
  argument.
* The external GPT generators are opaque oracles, passed as function
  arguments; an exception raised by an oracle is its `Except.error`
  outcome.
-/

/-- A parsed datetime instant: calendar year and month plus a
lexicographic remainder (day/hour/minute/second flattened). -/
structure DTime where
  year : Int
  month : Nat
  sub : Nat
deriving DecidableEq, Repr

/-- Python `datetime.__lt__`: lexicographic comparison. -/
def DTime.ltb (a b : DTime) : Bool :=
  if a.year < b.year then true
  else if b.year < a.year then false
  else if a.month < b.month then true
  else if b.month < a.month then false
  else decide (a.sub < b.sub)

/-- Python `datetime.__le__`: the reflexive closure of the total
lexicographic order, i.e. not strictly greater. -/
def DTime.leb (a b : DTime) : Bool :=
  !(DTime.ltb b a)

/-- Propositional form of the lexicographic order on instants. -/
def DTime.lt (a b : DTime) : Prop :=
  a.year < b.year ∨
    (a.year = b.year ∧ (a.month < b.month ∨ (a.month = b.month ∧ a.sub < b.sub)))

instance (a b : DTime) : Decidable (DTime.lt a b) := by
  unfold DTime.lt; infer_instance

theorem DTime.ltb_iff_lt (a b : DTime) : DTime.ltb a b = true ↔ DTime.lt a b := by
  unfold DTime.ltb DTime.lt
  split_ifs <;> simp_all <;> omega

theorem DTime.ltb_irrefl (a : DTime) : DTime.ltb a a = false := by
  unfold DTime.ltb
  split_ifs <;> simp_all

/-- The canonical event shape stored in memory
(`calendar_store.Event`, a `TypedDict`); `start` and `end` are kept as
their parsed instants. `end` is a Lean keyword, hence `end_`. -/
structure Event where
  id : String
  patient_name : String
  phone_number : String
  doctor_name : String
  start : DTime
  end_ : DTime
  timezone : String
  notes : String
deriving DecidableEq, Repr

/-- `calendar_store.overlaps`: after parsing, `s1 < e2 and s2 < e1`. -/
def overlaps (a_start a_end b_start b_end : DTime) : Bool :=
  DTime.ltb a_start b_end && DTime.ltb b_start a_end

/-- `calendar_store._list_month_events`: keep the events whose parsed
`start` has the given year and month. -/
def _list_month_events (events : List Event) (year : Int) (month : Nat) : List Event :=
  events.filter (fun ev => ev.start.year == year && ev.start.month == month)

/-- `calendar_store._get_events_between`. -/
def _get_events_between (events : List Event) (start_iso end_iso : DTime) : List Event :=
  events.filter (fun ev => overlaps ev.start ev.end_ start_iso end_iso)

/-- Result of `calendar_store._check_availability`. -/
structure Availability where
  available : Bool
  conflicts : List Event
deriving DecidableEq, Repr

/-- `calendar_store._check_availability`. -/
def _check_availability (events : List Event) (start_iso end_iso : DTime) : Availability :=
  let busy := _get_events_between events start_iso end_iso
  { available := busy.length == 0, conflicts := busy }

/-- The incoming `event: Dict` of `calendar_store._create_event`:
`id` and `notes` are fetched with `.get`, hence optional. -/
structure EventInput where
  id : Option String
  patient_name : String
  phone_number : String
  doctor_name : String
  start : DTime
  end_ : DTime
  timezone : String
  notes : Option String
deriving DecidableEq, Repr

/-- `calendar_store._create_event`.  The Python function mutates the
`events` list and raises `ValueError` on failure; here it returns the
outcome together with the resulting store (unchanged on failure).
`fresh_id` stands for `str(uuid4())`; `event.get("id") or str(uuid4())`
treats both a missing and an empty id as absent. -/
def _create_event (events : List Event) (event : EventInput) (fresh_id : String) :
    Except String Event × List Event :=
  if DTime.leb event.end_ event.start then
    (.error "end must be after start", events)
  else if !(_check_availability events event.start event.end_).available then
    (.error "Requested time overlaps an existing event.", events)
  else
    let ev : Event :=
      { id := match event.id with
              | some s => if s = "" then fresh_id else s
              | none => fresh_id
        patient_name := event.patient_name
        phone_number := event.phone_number
        doctor_name := event.doctor_name
        start := event.start
        end_ := event.end_
        timezone := event.timezone
        notes := event.notes.getD "" }
    (.ok ev, events ++ [ev])

/-- `calendar_store.get_event_by_id`: first event with matching id. -/
def get_event_by_id (events : List Event) (event_id : String) : Option Event :=
  events.find? (fun ev => ev.id == event_id)

/-- One question/answer pair (`{"question": ..., "answer": ...}`). -/
structure QAPair where
  question : String
  answer : String
deriving DecidableEq, Repr

/-- The structured report dict produced by
`pre_visit_report.generate_pre_visit_report` (its six validated
fields); the field payloads are opaque to the workflow, so they are
kept as plain strings / string lists. -/
structure Report where
  primary_concern : Option String
  medications : List String
  medical_history : Option String
  ai_insights : Option String
  suggested_questions : List String
  notes : Option String
deriving DecidableEq, Repr

/-- Contents of one per-event JSON file under `pre_visit_data`: the Q&A
list, the event id, and the `report` key once `save_report` wrote it. -/
structure FileData where
  qa : List QAPair
  event_id : String
  report : Option Report
deriving DecidableEq, Repr

/-- The `pre_visit_data` directory: an association of event ids to
their JSON files. -/
abbrev PreVisitStore := List (String × FileData)

/-- Reading the event's JSON file when it exists. -/
def lookupFile (store : PreVisitStore) (event_id : String) : Option FileData :=
  (List.find? (fun p => p.1 == event_id) store).map Prod.snd

/-- Writing, or overwriting, the event's JSON file. -/
def writeFile (store : PreVisitStore) (event_id : String) (d : FileData) : PreVisitStore :=
  match store with
  | [] => [(event_id, d)]
  | (k, v) :: rest =>
      if k = event_id then (event_id, d) :: rest
      else (k, v) :: writeFile rest event_id d

/-- `pre_visit_questions.save_qa`: load the event's file (or start an
empty record), append the pair, write the file back. -/
def save_qa (store : PreVisitStore) (event_id question answer : String) : PreVisitStore :=
  let data := (lookupFile store event_id).getD { qa := [], event_id := event_id, report := none }
  writeFile store event_id { data with qa := data.qa ++ [⟨question, answer⟩] }

/-- `pre_visit_questions.get_qa_history`: the file's `qa` list, or `[]`
when the file does not exist. -/
def get_qa_history (store : PreVisitStore) (event_id : String) : List QAPair :=
  match lookupFile store event_id with
  | none => []
  | some d => d.qa

/-- `pre_visit_report.save_report`: set the `report` key of the event's
file, leaving the `qa` list as it is. -/
def save_report (store : PreVisitStore) (event_id : String) (report : Report) : PreVisitStore :=
  let data := (lookupFile store event_id).getD { qa := [], event_id := event_id, report := none }
  writeFile store event_id { data with report := some report }

/-- `pre_visit_report.get_report`. -/
def get_report (store : PreVisitStore) (event_id : String) : Option Report :=
  match lookupFile store event_id with
  | none => none
  | some d => d.report

/-- The opaque GPT question generator inside
`pre_visit_questions.generate_next_question`: it receives the Q&A
history (as conversation context) and either returns the model's text
or raises. -/
abbrev QuestionGen := List QAPair → Except String String

/-- The opaque GPT report generator inside
`pre_visit_report.generate_pre_visit_report`: it receives the event's
Q&A history and either returns the parsed report or raises. -/
abbrev ReportGen := Event → List QAPair → Except String Report

/-- `pre_visit_questions.generate_next_question`: `None` once 7 pairs
are recorded, otherwise the stripped model output, with any model
failure caught and turned into `None`. -/
def generate_next_question (store : PreVisitStore) (event_id : String)
    (gen : QuestionGen) : Option String :=
  let qa_history := get_qa_history store event_id
  if 7 ≤ qa_history.length then none
  else
    match gen qa_history with
    | .error _ => none
    | .ok q => some q.trim

/-- The shared mutable state of the workflow: the calendar `EVENTS`
list and the `pre_visit_data` directory. -/
structure WorkflowStore where
  events : List Event
  previsit : PreVisitStore
deriving DecidableEq

/-- Return dict of `booking_agent_workflow.get_next_pre_visit_question`. -/
structure NextQuestionResult where
  question : Option String
  question_count : Nat
  is_complete : Bool
  message : Option String
deriving DecidableEq, Repr

/-- `booking_agent_workflow.get_next_pre_visit_question`.  The Python
function only reads state, so it is embedded as a pure function.
`if not question` is Python falsiness: it catches both `None` and the
empty string. -/
def get_next_pre_visit_question (ws : WorkflowStore) (event_id : String)
    (gen : QuestionGen) : NextQuestionResult :=
  match get_event_by_id ws.events event_id with
  | none =>
      { question := none, question_count := 0, is_complete := true
        message := some "Event not found" }
  | some _ =>
      let qa_history := get_qa_history ws.previsit event_id
      if 7 ≤ qa_history.length then
        { question := none, question_count := qa_history.length, is_complete := true
          message := some "All questions have been answered." }
      else
        match generate_next_question ws.previsit event_id gen with
        | none =>
            { question := none, question_count := qa_history.length, is_complete := true
              message := some "All questions have been answered." }
        | some q =>
            if q = "" then
              { question := none, question_count := qa_history.length, is_complete := true
                message := some "All questions have been answered." }
            else
              { question := some q, question_count := qa_history.length, is_complete := false
                message := none }

/-- Return dict of `booking_agent_workflow.submit_pre_visit_answer`. -/
structure SubmitResult where
  status : String
  question_count : Nat
  is_complete : Bool
  next_question : Option String
  message : Option String
deriving DecidableEq, Repr

/-- `booking_agent_workflow.submit_pre_visit_answer`: verify the event,
save the pair, re-read the history, and either report completion or
fetch the next question.  Returns the result dict with the updated
state. -/
def submit_pre_visit_answer (ws : WorkflowStore) (event_id question answer : String)
    (gen : QuestionGen) : SubmitResult × WorkflowStore :=
  match get_event_by_id ws.events event_id with
  | none =>
      ({ status := "error", question_count := 0, is_complete := false
         next_question := none, message := some "Event not found" }, ws)
  | some _ =>
      let previsit' := save_qa ws.previsit event_id question answer
      let ws' : WorkflowStore := { ws with previsit := previsit' }
      let qa_history := get_qa_history previsit' event_id
      if 7 ≤ qa_history.length then
        ({ status := "success", question_count := qa_history.length, is_complete := true
           next_question := none
           message := some "All questions completed. You can now generate the report." }, ws')
      else
        ({ status := "success", question_count := qa_history.length, is_complete := false
           next_question := generate_next_question previsit' event_id gen
           message := none }, ws')

/-- Return dict of `booking_agent_workflow.generate_pre_visit_report`. -/
structure ReportResult where
  status : String
  report : Option Report
  message : String
deriving DecidableEq, Repr

/-- `booking_agent_workflow.generate_pre_visit_report`: verify the
event, gate on 7 recorded answers, then call the external generator
and persist its output; a generator exception is caught and returned
as an error with the state untouched. -/
def generate_pre_visit_report (ws : WorkflowStore) (event_id : String)
    (repgen : ReportGen) : ReportResult × WorkflowStore :=
  match get_event_by_id ws.events event_id with
  | none =>
      ({ status := "error", report := none, message := "Event not found" }, ws)
  | some event =>
      let qa_history := get_qa_history ws.previsit event_id
      if qa_history.length < 7 then
        ({ status := "error", report := none
           message := "Not all questions answered. " ++ toString qa_history.length
             ++ "/7 completed." }, ws)
      else
        match repgen event qa_history with
        | .error e =>
            ({ status := "error", report := none
               message := "Failed to generate report: " ++ e }, ws)
        | .ok report =>
            ({ status := "success", report := some report
               message := "Report generated successfully" },
             { ws with previsit := save_report ws.previsit event_id report })

/-- Iterating `submit_pre_visit_answer` over a list of pairs (the shape
of an intake conversation: each turn submits one answer). -/
def applySubmits (ws : WorkflowStore) (event_id : String) (gen : QuestionGen) :
    List QAPair → WorkflowStore
  | [] => ws
  | p :: ps =>
      applySubmits (submit_pre_visit_answer ws event_id p.question p.answer gen).2
        event_id gen ps

/-- The store states reachable from the empty calendar by successful
`_create_event` operations (failed calls leave the store untouched, so
restricting to successful ones loses nothing). -/
inductive ReachableEvents : List Event → Prop
  | empty : ReachableEvents []
  | create (events : List Event) (inp : EventInput) (fid : String) (ev : Event) :
      ReachableEvents events →
      (_create_event events inp fid).1 = .ok ev →
      ReachableEvents (_create_event events inp fid).2

section StoreLemmas

theorem lookupFile_writeFile (store : PreVisitStore) (event_id : String) (d : FileData) :
    lookupFile (writeFile store event_id d) event_id = some d := by
  induction store with
  | nil => simp [writeFile, lookupFile]
  | cons hd tl ih =>
      obtain ⟨k, v⟩ := hd
      by_cases hk : k = event_id
      · simp [writeFile, hk, lookupFile]
      · simpa [writeFile, hk, lookupFile, List.find?] using ih

theorem get_qa_history_save_qa (store : PreVisitStore) (event_id q a : String) :
    get_qa_history (save_qa store event_id q a) event_id
      = get_qa_history store event_id ++ [⟨q, a⟩] := by
  unfold save_qa get_qa_history
  rw [lookupFile_writeFile]
  cases lookupFile store event_id <;> simp

theorem get_qa_history_save_report (store : PreVisitStore) (event_id : String) (r : Report) :
    get_qa_history (save_report store event_id r) event_id
      = get_qa_history store event_id := by
  unfold save_report get_qa_history
  rw [lookupFile_writeFile]
  cases lookupFile store event_id <;> simp

theorem available_iff (events : List Event) (s e : DTime) :
    (_check_availability events s e).available = true ↔
      ∀ b ∈ events, overlaps b.start b.end_ s e = false := by
  unfold _check_availability _get_events_between
  simp [List.length_eq_zero, List.filter_eq_nil_iff]

theorem conflicts_eq (events : List Event) (s e : DTime) :
    (_check_availability events s e).conflicts
      = events.filter (fun ev => overlaps ev.start ev.end_ s e) := rfl

/-- Anatomy of a successful `_create_event`: the store grows by exactly
the returned event, whose range is the candidate's, and the candidate's
range overlaps no previously stored event. -/
theorem create_event_ok (events : List Event) (inp : EventInput) (fid : String)
    (ev : Event) (h : (_create_event events inp fid).1 = .ok ev) :
    (_create_event events inp fid).2 = events ++ [ev] ∧
      ev.start = inp.start ∧ ev.end_ = inp.end_ ∧
      ∀ b ∈ events, overlaps b.start b.end_ inp.start inp.end_ = false := by
  unfold _create_event at h ⊢
  split_ifs at h ⊢ with h1 h2
  simp only [Except.ok.injEq] at h
  subst h
  refine ⟨rfl, rfl, rfl, ?_⟩
  rw [Bool.not_eq_true', Bool.not_eq_false] at h2
  exact (available_iff events inp.start inp.end_).mp h2

theorem overlaps_comm (a b c d : DTime) :
    overlaps a b c d = overlaps c d a b := by
  simp [overlaps, Bool.and_comm]

end StoreLemmas

section WorkflowLemmas

/-- `submit_pre_visit_answer` never touches the calendar list. -/
theorem submit_events_eq (ws : WorkflowStore) (eid q a : String) (gen : QuestionGen) :
    (submit_pre_visit_answer ws eid q a gen).2.events = ws.events := by
  unfold submit_pre_visit_answer
  cases get_event_by_id ws.events eid with
  | none => rfl
  | some ev =>
      dsimp only
      split <;> rfl

/-- A submit for an existing event succeeds, appends exactly the given
pair, and reports the grown count. -/
theorem submit_some_spec (ws : WorkflowStore) (eid q a : String) (gen : QuestionGen)
    (ev : Event) (h : get_event_by_id ws.events eid = some ev) :
    (submit_pre_visit_answer ws eid q a gen).1.status = "success" ∧
    (submit_pre_visit_answer ws eid q a gen).1.question_count
      = (get_qa_history ws.previsit eid).length + 1 ∧
    get_qa_history (submit_pre_visit_answer ws eid q a gen).2.previsit eid
      = get_qa_history ws.previsit eid ++ [⟨q, a⟩] := by
  unfold submit_pre_visit_answer
  rw [h]
  dsimp only
  split <;>
    simp [get_qa_history_save_qa]

/-- A submit for an unknown event reports the error and leaves the
whole state unchanged. -/
theorem submit_none_spec (ws : WorkflowStore) (eid q a : String) (gen : QuestionGen)
    (h : get_event_by_id ws.events eid = none) :
    (submit_pre_visit_answer ws eid q a gen).1.status = "error" ∧
    (submit_pre_visit_answer ws eid q a gen).1.message = some "Event not found" ∧
    (submit_pre_visit_answer ws eid q a gen).2 = ws := by
  unfold submit_pre_visit_answer
  rw [h]
  exact ⟨rfl, rfl, rfl⟩

/-- Iterated submits for an existing event append the submitted pairs
in order and keep the calendar list untouched. -/
theorem applySubmits_history (eid : String) (gen : QuestionGen) (qs : List QAPair) :
    ∀ ws : WorkflowStore, ∀ ev : Event, get_event_by_id ws.events eid = some ev →
      get_qa_history (applySubmits ws eid gen qs).previsit eid
        = get_qa_history ws.previsit eid ++ qs ∧
      (applySubmits ws eid gen qs).events = ws.events := by
  induction qs with
  | nil =>
      intro ws ev _
      exact ⟨by simp [applySubmits], rfl⟩
  | cons p ps ih =>
      intro ws ev h
      unfold applySubmits
      have hev : (submit_pre_visit_answer ws eid p.question p.answer gen).2.events
          = ws.events := submit_events_eq ws eid p.question p.answer gen
      have h' : get_event_by_id
          (submit_pre_visit_answer ws eid p.question p.answer gen).2.events eid
          = some ev := by rw [hev]; exact h
      obtain ⟨hh, he⟩ := ih _ ev h'
      obtain ⟨-, -, hq⟩ := submit_some_spec ws eid p.question p.answer gen ev h
      refine ⟨?_, by rw [he, hev]⟩
      rw [hh, hq]
      simp

end WorkflowLemmas

section Fixtures

/-- A concrete committed booking `[10:00, 10:30)` on 2025-01-15. -/
def evA : Event :=
  { id := "e1", patient_name := "Alice", phone_number := "555", doctor_name := "Lee"
    start := ⟨2025, 1, 1000⟩, end_ := ⟨2025, 1, 1030⟩, timezone := "UTC", notes := "" }

/-- A booking `[10:30, 11:00)` exactly adjacent to `evA`. -/
def evB : Event := { evA with id := "e2", start := ⟨2025, 1, 1030⟩, end_ := ⟨2025, 1, 1100⟩ }

/-- A booking `[10:15, 10:45)` overlapping `evA`. -/
def evC : Event := { evA with id := "e3", start := ⟨2025, 1, 1015⟩, end_ := ⟨2025, 1, 1045⟩ }

/-- The request dict that commits exactly the given event. -/
def inpOf (e : Event) : EventInput :=
  { id := some e.id, patient_name := e.patient_name, phone_number := e.phone_number
    doctor_name := e.doctor_name, start := e.start, end_ := e.end_
    timezone := e.timezone, notes := some e.notes }

/-- A request with an inverted range (`end <= start`). -/
def cBad : EventInput := { inpOf evA with start := ⟨2025, 1, 1030⟩, end_ := ⟨2025, 1, 1000⟩ }

/-- A request for `[10:00, 11:00)`, overlapping both `evA` and `evC`. -/
def cOver : EventInput :=
  { inpOf evA with id := some "e9", start := ⟨2025, 1, 1000⟩, end_ := ⟨2025, 1, 1100⟩ }

/-- A workflow state holding the single booking `evA` and no intake
files yet. -/
def wsA : WorkflowStore := { events := [evA], previsit := [] }

/-- A question generator whose model call always raises. -/
def genNone : QuestionGen := fun _ => .error "api down"

/-- The n-th concrete question/answer pair. -/
def qaP (n : Nat) : QAPair := { question := "q" ++ toString n, answer := "a" ++ toString n }

/-- Seven concrete intake pairs. -/
def qs7 : List QAPair := [qaP 1, qaP 2, qaP 3, qaP 4, qaP 5, qaP 6, qaP 7]

/-- Eight concrete intake pairs. -/
def qs8 : List QAPair := qs7 ++ [qaP 8]

/-- Three concrete intake pairs. -/
def qs3 : List QAPair := [qaP 1, qaP 2, qaP 3]

/-- `wsA` after three submitted answers. -/
def ws3A : WorkflowStore := applySubmits wsA "e1" genNone qs3

/-- `wsA` after the full seven submitted answers. -/
def ws7A : WorkflowStore := applySubmits wsA "e1" genNone qs7

/-- `wsA` after eight submitted answers. -/
def ws8A : WorkflowStore := applySubmits wsA "e1" genNone qs8

/-- A concrete parsed report. -/
def rep0 : Report :=
  { primary_concern := some "back pain", medications := [], medical_history := none
    ai_insights := none, suggested_questions := [], notes := none }

/-- A report generator that always parses to `rep0`. -/
def repOk : ReportGen := fun _ _ => .ok rep0

/-- A report generator whose model call always raises. -/
def repFail : ReportGen := fun _ _ => .error "boom"

end Fixtures

/-- C1: in any store state reachable from the empty store by successful
`_create_event` operations, the ranges of any two index-distinct
committed bookings do not overlap (in either argument order). -/
theorem no_overlap_invariant (es : List Event) (h : ReachableEvents es) :
    es.Pairwise (fun A B =>
      overlaps A.start A.end_ B.start B.end_ = false ∧
      overlaps B.start B.end_ A.start A.end_ = false) := by
  induction h with
  | empty => exact List.Pairwise.nil
  | create events inp fid ev hr heq ih =>
      obtain ⟨h2, hs, he, hno⟩ := create_event_ok events inp fid ev heq
      rw [h2, List.pairwise_append]
      refine ⟨ih, by simp, ?_⟩
      intro a ha b hb
      simp only [List.mem_singleton] at hb
      subst hb
      have hab := hno a ha
      constructor
      · rw [hs, he]; exact hab
      · rw [overlaps_comm, hs, he]; exact hab

/-- C1 witness: the invariant evaluated on the concrete two-booking
store reached by committing `evA` then the adjacent `evB`. -/
theorem no_overlap_invariant_witness :
    ([evA, evB] : List Event).Pairwise (fun A B =>
      overlaps A.start A.end_ B.start B.end_ = false ∧
      overlaps B.start B.end_ A.start A.end_ = false) := by
  have h2 : ReachableEvents [evA, evB] :=
    ReachableEvents.create [evA] (inpOf evB) "f" evB
      (ReachableEvents.create [] (inpOf evA) "f" evA ReachableEvents.empty rfl) rfl
  exact no_overlap_invariant [evA, evB] h2

/-- C2 (amended): `_create_event` rejects an inverted or empty range
with the validation `ValueError` and an overlapping range with the
conflict `ValueError`, leaving the store unchanged in both cases;
otherwise it appends exactly one new event.  Unavailability is exactly
the existence of an overlapping stored booking.  The conflict error
itself is a message-only `ValueError`; the conflicting bookings are not
attached to it (see the counterexample theorem). -/
theorem create_event_spec (events : List Event) (inp : EventInput) (fid : String) :
    (DTime.leb inp.end_ inp.start = true →
       _create_event events inp fid = (.error "end must be after start", events)) ∧
    (DTime.leb inp.end_ inp.start = false →
     (_check_availability events inp.start inp.end_).available = false →
       _create_event events inp fid
         = (.error "Requested time overlaps an existing event.", events)) ∧
    (DTime.leb inp.end_ inp.start = false →
     (_check_availability events inp.start inp.end_).available = true →
       ∃ ev, _create_event events inp fid = (.ok ev, events ++ [ev])) ∧
    ((_check_availability events inp.start inp.end_).available = false ↔
       ∃ b ∈ events, overlaps b.start b.end_ inp.start inp.end_ = true) := by
  refine ⟨?_, ?_, ?_, ?_⟩
  · intro h1
    simp [_create_event, h1]
  · intro h1 h2
    simp [_create_event, h1, h2]
  · intro h1 h2
    exact ⟨_, by simp only [_create_event, h1, h2]; rfl⟩
  · rw [← Bool.not_eq_true, available_iff]
    push_neg
    simp

/-- C2 counterexample: the conflict failure does not carry the
conflicting bookings — two stores with different (and disjoint)
conflict sets produce exactly the same message-only error value. -/
theorem create_event_error_carries_no_conflicts :
    evA ≠ evC ∧
    (_check_availability [evA] cOver.start cOver.end_).conflicts ≠
      (_check_availability [evC] cOver.start cOver.end_).conflicts ∧
    (_create_event [evA] cOver "f").1
      = .error "Requested time overlaps an existing event." ∧
    (_create_event [evA] cOver "f").1 = (_create_event [evC] cOver "f").1 := by
  exact ⟨by decide, by decide, rfl, rfl⟩

/-- C2 witness: the three outcomes of `create_event_spec` evaluated on
concrete stores and requests. -/
theorem create_event_spec_witness :
    _create_event [] cBad "f" = (.error "end must be after start", []) ∧
    _create_event [evA] cOver "f"
      = (.error "Requested time overlaps an existing event.", [evA]) ∧
    ∃ ev, _create_event [] (inpOf evA) "f" = (.ok ev, [ev]) := by
  refine ⟨(create_event_spec [] cBad "f").1 rfl,
          (create_event_spec [evA] cOver "f").2.1 rfl rfl, ?_⟩
  exact (create_event_spec [] (inpOf evA) "f").2.2.1 rfl rfl

/-- C4: `overlaps` is exactly `A.start < B.end AND B.start < A.end` on
half-open ranges, touching ranges never overlap, and a request exactly
adjacent to the single stored booking (its start equal to that
booking's end) is committed successfully. -/
theorem overlaps_half_open_spec :
    (∀ aS aE bS bE : DTime,
       overlaps aS aE bS bE = true ↔ (DTime.lt aS bE ∧ DTime.lt bS aE)) ∧
    (∀ x y z : DTime, overlaps x y y z = false) ∧
    (∀ (A : Event) (c : EventInput) (fid : String),
       c.start = A.end_ → DTime.lt c.start c.end_ →
       ∃ ev, _create_event [A] c fid = (.ok ev, [A, ev])) := by
  refine ⟨?_, ?_, ?_⟩
  · intro aS aE bS bE
    simp [overlaps, DTime.ltb_iff_lt]
  · intro x y z
    simp [overlaps, DTime.ltb_irrefl]
  · intro A c fid hadj hlt
    have h1 : DTime.leb c.end_ c.start = false := by
      unfold DTime.leb
      rw [(DTime.ltb_iff_lt c.start c.end_).mpr hlt]
      rfl
    have hov : overlaps A.start A.end_ c.start c.end_ = false := by
      simp [overlaps, hadj, DTime.ltb_irrefl]
    have h2 : (_check_availability [A] c.start c.end_).available = true := by
      rw [available_iff]
      intro b hb
      simp only [List.mem_singleton] at hb
      subst hb
      exact hov
    exact ⟨_, by simp only [_create_event, h1, h2]; rfl⟩

/-- C4 witness: the characterization at concrete instants, and the
adjacent request `evB` committed on top of `[evA]`. -/
theorem overlaps_half_open_spec_witness :
    (overlaps ⟨2025, 1, 1000⟩ ⟨2025, 1, 1030⟩ ⟨2025, 1, 1015⟩ ⟨2025, 1, 1045⟩ = true ↔
       (DTime.lt ⟨2025, 1, 1000⟩ ⟨2025, 1, 1045⟩ ∧ DTime.lt ⟨2025, 1, 1015⟩ ⟨2025, 1, 1030⟩)) ∧
    overlaps ⟨2025, 1, 1000⟩ ⟨2025, 1, 1030⟩ ⟨2025, 1, 1030⟩ ⟨2025, 1, 1100⟩ = false ∧
    ∃ ev, _create_event [evA] (inpOf evB) "f" = (.ok ev, [evA, ev]) := by
  refine ⟨overlaps_half_open_spec.1 _ _ _ _, overlaps_half_open_spec.2.1 _ _ _, ?_⟩
  exact overlaps_half_open_spec.2.2 evA (inpOf evB) "f" rfl (by decide)

/-- C9: `_list_month_events` keeps exactly the stored events whose
`start` has the requested year and month; the event's end plays no
role. -/
theorem list_month_events_spec (events : List Event) (year : Int) (month : Nat)
    (ev : Event) :
    ev ∈ _list_month_events events year month ↔
      ev ∈ events ∧ ev.start.year = year ∧ ev.start.month = month := by
  unfold _list_month_events
  simp [List.mem_filter, and_assoc]

/-- C3 (amended): `generate_pre_visit_report` reports the not-found
error for an unknown event, reports the incomplete error carrying the
current answer count whenever the history is shorter than 7, and
invokes the external report generator (returning its parsed output)
whenever the history has at least 7 pairs — not only at exactly 7,
since longer histories are reachable (see the counterexample
theorem). -/
theorem generate_report_gating (ws : WorkflowStore) (event_id : String)
    (repgen : ReportGen) :
    (get_event_by_id ws.events event_id = none →
       generate_pre_visit_report ws event_id repgen
         = ({ status := "error", report := none, message := "Event not found" }, ws)) ∧
    (∀ ev, get_event_by_id ws.events event_id = some ev →
       (get_qa_history ws.previsit event_id).length < 7 →
       generate_pre_visit_report ws event_id repgen
         = ({ status := "error", report := none
              message := "Not all questions answered. "
                ++ toString (get_qa_history ws.previsit event_id).length
                ++ "/7 completed." }, ws)) ∧
    (∀ ev r, get_event_by_id ws.events event_id = some ev →
       7 ≤ (get_qa_history ws.previsit event_id).length →
       repgen ev (get_qa_history ws.previsit event_id) = .ok r →
       (generate_pre_visit_report ws event_id repgen).1
         = { status := "success", report := some r
             message := "Report generated successfully" }) := by
  refine ⟨?_, ?_, ?_⟩
  · intro h
    unfold generate_pre_visit_report
    rw [h]
  · intro ev h hlen
    unfold generate_pre_visit_report
    rw [h]
    dsimp only
    rw [if_pos hlen]
  · intro ev r h hlen hgen
    unfold generate_pre_visit_report
    rw [h]
    dsimp only
    rw [if_neg (by omega), hgen]

/-- C3 counterexample: after eight submitted answers the history has
length 8 and `generate_pre_visit_report` still proceeds to call the
generator and succeed, so the gate is `length >= 7`, not
`length == 7`. -/
theorem generate_report_gating_cex :
    (get_qa_history ws8A.previsit "e1").length = 8 ∧
    (generate_pre_visit_report ws8A "e1" repOk).1
      = { status := "success", report := some rep0
          message := "Report generated successfully" } := by
  exact ⟨rfl, rfl⟩

/-- C3 witness: the three branches of `generate_report_gating`
evaluated on concrete stores. -/
theorem generate_report_gating_witness :
    generate_pre_visit_report { events := [], previsit := [] } "missing" repOk
      = ({ status := "error", report := none, message := "Event not found" },
         { events := [], previsit := [] }) ∧
    generate_pre_visit_report wsA "e1" repOk
      = ({ status := "error", report := none
           message := "Not all questions answered. 0/7 completed." }, wsA) ∧
    (generate_pre_visit_report ws7A "e1" repOk).1
      = { status := "success", report := some rep0
          message := "Report generated successfully" } := by
  refine ⟨(generate_report_gating { events := [], previsit := [] } "missing" repOk).1 rfl,
          ?_, ?_⟩
  · exact (generate_report_gating wsA "e1" repOk).2.1 evA rfl (by decide)
  · exact (generate_report_gating ws7A "e1" repOk).2.2 evA rep0 rfl (by decide) rfl

/-- C5 (amended): for an existing booking each submitted answer is
recorded, so after `n` submits the history length has grown by exactly
`n` — for every `n`, with no upper cap — and the next submit after any
such sequence still reports success.  The `0 ≤ len ≤ 7` invariant
fails: lengths above 7 are reachable (see the counterexample
theorem). -/
theorem intake_history_length (ws : WorkflowStore) (eid : String) (gen : QuestionGen)
    (qs : List QAPair) (ev : Event) (h : get_event_by_id ws.events eid = some ev) :
    (get_qa_history (applySubmits ws eid gen qs).previsit eid).length
      = (get_qa_history ws.previsit eid).length + qs.length ∧
    ∀ q a, (submit_pre_visit_answer (applySubmits ws eid gen qs) eid q a gen).1.status
      = "success" := by
  obtain ⟨hh, he⟩ := applySubmits_history eid gen qs ws ev h
  constructor
  · rw [hh]; simp
  · intro q a
    have h' : get_event_by_id (applySubmits ws eid gen qs).events eid = some ev := by
      rw [he]; exact h
    exact (submit_some_spec (applySubmits ws eid gen qs) eid q a gen ev h').1

/-- C5 counterexample: eight submitted answers are all accepted and the
stored history reaches length 8, exceeding the claimed cap of 7. -/
theorem intake_history_cap_cex :
    (get_qa_history ws8A.previsit "e1").length = 8 ∧
    (submit_pre_visit_answer ws7A "e1" "q8" "a8" genNone).1.status = "success" := by
  exact ⟨rfl, rfl⟩

/-- C5 witness: the growth law evaluated after the eight concrete
submits on `wsA`. -/
theorem intake_history_length_witness :
    (get_qa_history (applySubmits wsA "e1" genNone qs8).previsit "e1").length
      = (get_qa_history wsA.previsit "e1").length + qs8.length ∧
    (submit_pre_visit_answer (applySubmits wsA "e1" genNone qs8) "e1" "q9" "a9"
        genNone).1.status = "success" := by
  have h := intake_history_length wsA "e1" genNone qs8 evA rfl
  exact ⟨h.1, h.2 "q9" "a9"⟩

/-- C6: for an existing booking a submit appends the given pair
unconditionally and returns the updated count with success; for an
unknown booking it reports the not-found error and changes nothing;
and the history read back after any sequence of submits is exactly the
submitted pairs in order. -/
theorem submit_answer_spec (ws : WorkflowStore) (eid q a : String) (gen : QuestionGen) :
    (get_event_by_id ws.events eid = none →
       (submit_pre_visit_answer ws eid q a gen).1.status = "error" ∧
       (submit_pre_visit_answer ws eid q a gen).1.message = some "Event not found" ∧
       (submit_pre_visit_answer ws eid q a gen).2 = ws) ∧
    (∀ ev, get_event_by_id ws.events eid = some ev →
       (submit_pre_visit_answer ws eid q a gen).1.status = "success" ∧
       (submit_pre_visit_answer ws eid q a gen).1.question_count
         = (get_qa_history ws.previsit eid).length + 1 ∧
       get_qa_history (submit_pre_visit_answer ws eid q a gen).2.previsit eid
         = get_qa_history ws.previsit eid ++ [⟨q, a⟩]) ∧
    (∀ (qs : List QAPair) (ev : Event), get_event_by_id ws.events eid = some ev →
       get_qa_history (applySubmits ws eid gen qs).previsit eid
         = get_qa_history ws.previsit eid ++ qs) := by
  refine ⟨?_, ?_, ?_⟩
  · intro h
    exact submit_none_spec ws eid q a gen h
  · intro ev h
    exact submit_some_spec ws eid q a gen ev h
  · intro qs ev h
    exact (applySubmits_history eid gen qs ws ev h).1

/-- C6 witness: the two branches and the replayed history evaluated on
concrete stores. -/
theorem submit_answer_spec_witness :
    (submit_pre_visit_answer wsA "nope" "q" "a" genNone).1.status = "error" ∧
    (submit_pre_visit_answer wsA "nope" "q" "a" genNone).2 = wsA ∧
    (submit_pre_visit_answer wsA "e1" "q" "a" genNone).1.status = "success" ∧
    (submit_pre_visit_answer wsA "e1" "q" "a" genNone).1.question_count = 1 ∧
    get_qa_history (applySubmits wsA "e1" genNone qs3).previsit "e1" = qs3 := by
  refine ⟨((submit_answer_spec wsA "nope" "q" "a" genNone).1 rfl).1,
          ((submit_answer_spec wsA "nope" "q" "a" genNone).1 rfl).2.2,
          ((submit_answer_spec wsA "e1" "q" "a" genNone).2.1 evA rfl).1,
          ((submit_answer_spec wsA "e1" "q" "a" genNone).2.1 evA rfl).2.1,
          (submit_answer_spec wsA "e1" "q" "a" genNone).2.2 qs3 evA rfl⟩

/-- C7: when the booking exists with a complete (length-7) history and
the external report generator fails, the workflow surfaces the wrapped
generator error and returns the state unchanged — no report is
persisted and the Q&A history is untouched. -/
theorem report_generator_failure_no_persist (ws : WorkflowStore) (eid : String)
    (repgen : ReportGen) (ev : Event) (emsg : String)
    (h1 : get_event_by_id ws.events eid = some ev)
    (h2 : (get_qa_history ws.previsit eid).length = 7)
    (h3 : repgen ev (get_qa_history ws.previsit eid) = .error emsg) :
    generate_pre_visit_report ws eid repgen
      = ({ status := "error", report := none
           message := "Failed to generate report: " ++ emsg }, ws) := by
  unfold generate_pre_visit_report
  rw [h1]
  dsimp only
  rw [if_neg (by omega), h3]

/-- C7 witness: the failing generator on the concrete complete
session. -/
theorem report_generator_failure_no_persist_witness :
    generate_pre_visit_report ws7A "e1" repFail
      = ({ status := "error", report := none
           message := "Failed to generate report: boom" }, ws7A) :=
  report_generator_failure_no_persist ws7A "e1" repFail evA "boom" rfl rfl rfl

/-- C8: for an existing booking with fewer than 7 recorded answers, a
failing question generator makes `get_next_pre_visit_question` return
no question with a status message instead of raising; the function
performs no writes (it is embedded as a pure reader of the state), so
the stored history is untouched. -/
theorem question_generator_failure_degrades (ws : WorkflowStore) (eid : String)
    (gen : QuestionGen) (ev : Event) (emsg : String)
    (h1 : get_event_by_id ws.events eid = some ev)
    (h2 : (get_qa_history ws.previsit eid).length < 7)
    (h3 : gen (get_qa_history ws.previsit eid) = .error emsg) :
    get_next_pre_visit_question ws eid gen
      = { question := none, question_count := (get_qa_history ws.previsit eid).length
          is_complete := true, message := some "All questions have been answered." } := by
  unfold get_next_pre_visit_question generate_next_question
  rw [h1]
  dsimp only
  rw [if_neg (by omega), if_neg (by omega), h3]

/-- C8 witness: the failing generator on the concrete three-answer
session. -/
theorem question_generator_failure_degrades_witness :
    get_next_pre_visit_question ws3A "e1" genNone
      = { question := none, question_count := 3
          is_complete := true, message := some "All questions have been answered." } :=
  question_generator_failure_degrades ws3A "e1" genNone evA "api down" rfl (by decide) rfl

/-- C10: `get_next_pre_visit_question` answers `is_complete = true`
with `question = none` both for an unknown event and for a live
session where the generator yields nothing after only 3 of 7 answers;
hence `is_complete = true` does not imply a history of length at
least 7. -/
theorem next_question_is_complete_ambiguity :
    (get_next_pre_visit_question { events := [], previsit := [] } "missing"
        genNone).is_complete = true ∧
    (get_next_pre_visit_question { events := [], previsit := [] } "missing"
        genNone).question = none ∧
    (get_next_pre_visit_question ws3A "e1" genNone).is_complete = true ∧
    (get_next_pre_visit_question ws3A "e1" genNone).question = none ∧
    (get_qa_history ws3A.previsit "e1").length = 3 := by
  exact ⟨rfl, rfl, rfl, rfl, rfl⟩
